import Mathlib

/-!
A shallow embedding of the cross-monitor window relocation engine
(`src/window_manager.py` and the hotkey validator of `src/settings_manager.py`),
together with proofs settling the frozen claims about it.

Python integers and pixel coordinates are modelled as `ℤ`, Python floats as `ℚ`
(the algorithms only ever divide, multiply, compare and truncate, so exact
rational arithmetic mirrors the intended real-number computation), and Python's
`int(...)` float-to-int conversion as truncation toward zero.  Fallible code is
modelled with `Option`/`Except`: a raised exception that escapes a function is
`none`/`.error`, and the `try/except` blocks of the source become `match`es on
those values.  Win32 API calls are modelled by explicit oracle records: one
field per call site, recording the outcome the operating system chose.
-/

/-- Python `int(x)` applied to a float: truncation toward zero. -/
def pyInt (q : ℚ) : ℤ := if 0 ≤ q then ⌊q⌋ else ⌈q⌉

/-- Python `str.strip()` with no arguments, on the character list of a
string: remove leading and trailing whitespace. -/
def pyStrip (s : List Char) : List Char :=
  ((s.dropWhile Char.isWhitespace).reverse.dropWhile Char.isWhitespace).reverse

/-- Python `str.split(sep)` for a one-character separator, on the character
list of a string: the empty string splits into one empty part, and every
occurrence of the separator opens a new part, so adjacent separators yield
empty parts. -/
def pySplit (sep : Char) : List Char → List (List Char)
  | [] => [[]]
  | c :: cs =>
    if c = sep then [] :: pySplit sep cs
    else
      match pySplit sep cs with
      | [] => [[c]]
      | r :: rs => (c :: r) :: rs

/-- Membership of a character list in a list of strings, comparing against
each string's characters. -/
def strListContains (l : List String) (cs : List Char) : Bool :=
  l.any (fun s => s.toList == cs)

/-- One entry of the list built by `WindowManager.get_monitors`
(`window_manager.py` lines 373-382): the fields of the per-monitor dict that
the embedded functions read.  `scale_factor` is the pair
`(dpi_x / 96.0, dpi_y / 96.0)`; rectangles are `(left, top, right, bottom)`. -/
structure Monitor where
  index : Nat
  rect : ℤ × ℤ × ℤ × ℤ
  work_area : ℤ × ℤ × ℤ × ℤ
  dpi : ℤ × ℤ
  scale_factor : ℚ × ℚ
  deriving Repr, DecidableEq

/-- The window dict built by `WindowManager.get_current_window`
(`window_manager.py` lines 479-487), restricted to the fields the embedded
functions read.  `rect` is `(left, top, right, bottom)`. -/
structure WindowInfo where
  rect : ℤ × ℤ × ℤ × ℤ
  title : String
  class_name : String
  is_maximized : Bool
  is_minimized : Bool
  deriving Repr, DecidableEq

/-- Size stage of `WindowManager.calculate_target_position`
(`window_manager.py` lines 512-596): the physical work areas of both
monitors, the physical size ratios, the scaled size, the fallback for a
non-positive computed size (lines 571-576), the cap for ratios above 150%
(lines 579-586) and the floor for ratios below 10% (lines 588-593).  The
source's float variables `relative_width_ratio`/`relative_height_ratio` are
named `ratio_w`/`ratio_h`; re-assignments of the mutable Python locals become
primed `let`s.  The result is `none` exactly when the source raises
`ZeroDivisionError`: a truncated physical work-area dimension of the current
monitor is zero (lines 553-554), or the target scale factor is zero (line
567). -/
def ctpScaledSize (window_rect : ℤ × ℤ × ℤ × ℤ)
    (current_monitor target_monitor : Monitor) : Option (ℤ × ℤ) :=
  let (x, y, r, b) := window_rect
  let original_width := r - x
  let original_height := b - y
  let (current_x, current_y, current_right, current_bottom) := current_monitor.work_area
  let current_scale := current_monitor.scale_factor.1
  let current_physical_width := pyInt ((current_right - current_x : ℚ) * current_scale)
  let current_physical_height := pyInt ((current_bottom - current_y : ℚ) * current_scale)
  let (target_x, target_y, target_right, target_bottom) := target_monitor.work_area
  let target_scale := target_monitor.scale_factor.1
  let target_physical_width := pyInt ((target_right - target_x : ℚ) * target_scale)
  let target_physical_height := pyInt ((target_bottom - target_y : ℚ) * target_scale)
  let target_width := target_right - target_x
  let target_height := target_bottom - target_y
  if current_physical_width = 0 ∨ current_physical_height = 0 ∨ target_scale = 0 then
    none
  else
    let ratio_w := (original_width : ℚ) * current_scale / (current_physical_width : ℚ)
    let ratio_h := (original_height : ℚ) * current_scale / (current_physical_height : ℚ)
    let target_physical_scaled_width := pyInt ((target_physical_width : ℚ) * ratio_w)
    let target_physical_scaled_height := pyInt ((target_physical_height : ℚ) * ratio_h)
    let scaled_width := pyInt ((target_physical_scaled_width : ℚ) / target_scale)
    let scaled_height := pyInt ((target_physical_scaled_height : ℚ) / target_scale)
    let scaled_width_1 := if scaled_width ≤ 0 ∨ scaled_height ≤ 0 then
        max 400 (min original_width (Int.fdiv target_width 2)) else scaled_width
    let scaled_height_1 := if scaled_width ≤ 0 ∨ scaled_height ≤ 0 then
        max 300 (min original_height (Int.fdiv target_height 2)) else scaled_height
    let capLarge := 3/2 < ratio_w ∨ 3/2 < ratio_h
    let ratio_w_1 := if capLarge then min ratio_w 1 else ratio_w
    let ratio_h_1 := if capLarge then min ratio_h 1 else ratio_h
    let scaled_width_2 := if capLarge then pyInt ((target_width : ℚ) * ratio_w_1)
        else scaled_width_1
    let scaled_height_2 := if capLarge then pyInt ((target_height : ℚ) * ratio_h_1)
        else scaled_height_1
    let isSmall := ratio_w_1 < 1/10 ∨ ratio_h_1 < 1/10
    let scaled_width_3 := if isSmall then max scaled_width_2 400 else scaled_width_2
    let scaled_height_3 := if isSmall then max scaled_height_2 300 else scaled_height_2
    some (scaled_width_3, scaled_height_3)

/-- Position stage of `WindowManager.calculate_target_position`
(`window_manager.py` lines 557-559): the window's relative position as a
fraction of the current work area's logical dimensions, defaulting to `0.5`
on a degenerate work area.  The source's `relative_x_ratio` and
`relative_y_ratio` are named `ratio_x` and `ratio_y`. -/
def ctpPositionRatios (window_rect : ℤ × ℤ × ℤ × ℤ)
    (current_monitor : Monitor) : ℚ × ℚ :=
  let (x, y, _, _) := window_rect
  let (current_x, current_y, current_right, current_bottom) := current_monitor.work_area
  let current_logical_width := current_right - current_x
  let current_logical_height := current_bottom - current_y
  let ratio_x := if 0 < current_logical_width then
      (x - current_x : ℚ) / (current_logical_width : ℚ) else 1/2
  let ratio_y := if 0 < current_logical_height then
      (y - current_y : ℚ) / (current_logical_height : ℚ) else 1/2
  (ratio_x, ratio_y)

/-- `WindowManager.calculate_target_position` (`window_manager.py` lines
497-628): the size stage and the position ratios above, followed by the
relative positioning (lines 603-615), the work-area overflow clamp with its
40-unit margin (lines 618-622) and the position clamp with its 10-unit inset
(lines 625-626).  The result is `(x, y, width, height)`, or `none` when the
source raises `ZeroDivisionError`. -/
def calculate_target_position (window_rect : ℤ × ℤ × ℤ × ℤ)
    (current_monitor target_monitor : Monitor) : Option (ℤ × ℤ × ℤ × ℤ) :=
  match ctpScaledSize window_rect current_monitor target_monitor with
  | none => none
  | some (scaled_width, scaled_height) =>
    let (ratio_x, ratio_y) := ctpPositionRatios window_rect current_monitor
    let (target_x, target_y, target_right, target_bottom) := target_monitor.work_area
    let target_width := target_right - target_x
    let target_height := target_bottom - target_y
    let calculated_x := target_x + pyInt (ratio_x * (target_width : ℚ))
    let calculated_y := target_y + pyInt (ratio_y * (target_height : ℚ))
    let final_width := if target_width < scaled_width then target_width - 40
        else scaled_width
    let final_height := if target_height < scaled_height then target_height - 40
        else scaled_height
    let new_x := max (target_x + 10) (min calculated_x (target_right - final_width - 10))
    let new_y := max (target_y + 10) (min calculated_y (target_bottom - final_height - 10))
    some (new_x, new_y, final_width, final_height)

/-- `WindowManager._calculate_overlap` (`window_manager.py` lines 765-780):
the area of the intersection of two `(left, top, right, bottom)` rectangles,
`0` when they do not properly overlap. -/
def _calculate_overlap (rect1 rect2 : ℤ × ℤ × ℤ × ℤ) : ℤ :=
  let (x1, y1, x2, y2) := rect1
  let (a1, b1, a2, b2) := rect2
  let left := max x1 a1
  let top := max y1 b1
  let right := min x2 a2
  let bottom := min y2 b2
  if left < right ∧ top < bottom then (right - left) * (bottom - top) else 0

/-- `WindowManager._find_window_monitor` (`window_manager.py` lines 751-763):
the monitor whose `rect` has the largest strictly positive overlap with the
window rectangle, scanning the list in order starting from `max_overlap = 0`
and `best_monitor = None`. -/
def _find_window_monitor (window_rect : ℤ × ℤ × ℤ × ℤ)
    (monitors : List Monitor) : Option Monitor :=
  (monitors.foldl
    (fun (acc : ℤ × Option Monitor) m =>
      let overlap := _calculate_overlap window_rect m.rect
      if acc.1 < overlap then (overlap, some m) else acc)
    (0, none)).2

/-- `WindowManager._is_fullscreen_window` (`window_manager.py` lines 727-749).
The source reads the monitor list through `self.get_monitors()`; it is passed
here as the `monitors` argument. -/
def _is_fullscreen_window (monitors : List Monitor) (window_info : WindowInfo) :
    Bool :=
  if window_info.is_maximized then false
  else
    match _find_window_monitor window_info.rect monitors with
    | none => false
    | some window_monitor =>
      let (wx, wy, wr, wb) := window_info.rect
      let (mx, my, mr, mb) := window_monitor.rect
      decide (wx ≤ mx ∧ wy ≤ my ∧ mr ≤ wr ∧ mb ≤ wb)

/-- The set of system window classes excluded by
`WindowManager._should_exclude_window` (`window_manager.py` lines 711-716). -/
def excluded_classes : List String :=
  ["Shell_TrayWnd", "DV2ControlHost", "WorkerW", "Progman"]

/-- `WindowManager._should_exclude_window` (`window_manager.py` lines 695-725).
The source reads the `exclude_fullscreen` setting through the settings manager
and the monitor list through `self.get_monitors()`; both are passed here as
arguments. -/
def _should_exclude_window (exclude_fullscreen : Bool) (monitors : List Monitor)
    (window_info : WindowInfo) : Bool :=
  if window_info.is_minimized then true
  else if exclude_fullscreen && _is_fullscreen_window monitors window_info then true
  else if strListContains excluded_classes window_info.class_name.toList then true
  else if pyStrip window_info.title.toList = [] then true
  else false

/-- `WindowManager._get_next_monitor` (`window_manager.py` lines 782-792):
linear scan for the monitor whose `index` equals
`(current.index + 1) % len(monitors)`.  (On an empty list the source raises
`ZeroDivisionError`; its caller converts any exception to a `false` result,
the same observable outcome as the `none` this model then returns.) -/
def _get_next_monitor (current_monitor : Monitor) (monitors : List Monitor) :
    Option Monitor :=
  let next_index := (current_monitor.index + 1) % monitors.length
  monitors.find? (fun m => m.index == next_index)

/-- Outcomes of the Win32 calls made by `WindowManager._get_dpi_for_monitor`
(`window_manager.py` lines 137-229), one field per strategy of the cascade:
`getDpiForMonitorApi` is `some (dx, dy)` when `shcore.GetDpiForMonitor`
returns `S_OK` with those values, `none` when it returns another code or
raises; `deviceContextDpi` is `some (dx, dy)` when a device context was
created and `GetDeviceCaps` read those values, `none` when any step of
strategy 2 raised or no context was obtained; `monitorRect` is the `Monitor`
rectangle `GetMonitorInfo` reports to strategy 3, `none` when it raises. -/
structure DpiOracle where
  getDpiForMonitorApi : Option (ℤ × ℤ)
  deviceContextDpi : Option (ℤ × ℤ)
  monitorRect : Option (ℤ × ℤ × ℤ × ℤ)
  deriving Repr, DecidableEq

/-- The resolution heuristic of `WindowManager._get_dpi_for_monitor`
(`window_manager.py` lines 197-219): the estimated DPI for a monitor of the
given logical width and height. -/
def dpiHeuristic (width height : ℤ) : ℤ :=
  if width = 2560 ∧ height = 1440 then 96
  else if width = 1920 ∧ height = 1080 then 96
  else if width < 1600 ∧ height < 1000 then 168
  else if width = 3440 ∧ height = 1440 then 96
  else 96

/-- `WindowManager._get_dpi_for_monitor` (`window_manager.py` lines 137-229):
the cascade over the three strategies, with the `(96, 96)` ultimate
fallback.  Strategy 2's result is used only when both reported values are
strictly positive (line 180); strategy 3 applies `dpiHeuristic` to the monitor
rectangle when `GetMonitorInfo` succeeds. -/
def _get_dpi_for_monitor (o : DpiOracle) : ℤ × ℤ :=
  match o.getDpiForMonitorApi with
  | some d => d
  | none =>
    let heuristic :=
      match o.monitorRect with
      | some (l, t, r, b) =>
        let d := dpiHeuristic (r - l) (b - t)
        (d, d)
      | none => (96, 96)
    match o.deviceContextDpi with
    | some (dpi_x, dpi_y) =>
      if 0 < dpi_x ∧ 0 < dpi_y then (dpi_x, dpi_y) else heuristic
    | none => heuristic

/-- The `parsed` dict returned by `SettingsManager.validate_hotkey`
(`settings_manager.py` lines 229-233). -/
structure HotkeyParsed where
  main_key : String
  modifiers : List String
  full_hotkey : String
  deriving Repr, DecidableEq

/-- The validation-result dict of `SettingsManager.validate_hotkey`. -/
structure HotkeyValidation where
  valid : Bool
  error : Option String
  parsed : Option HotkeyParsed
  deriving Repr, DecidableEq

/-- The modifier allow-list of `SettingsManager.validate_hotkey`
(`settings_manager.py` line 158). -/
def valid_modifiers : List String := ["Ctrl", "Alt", "Shift", "Win"]

/-- `{f'F{i}' for i in range(1, 13)}` (`settings_manager.py` line 159). -/
def valid_function_keys : List String :=
  ["F1", "F2", "F3", "F4", "F5", "F6", "F7", "F8", "F9", "F10", "F11", "F12"]

/-- `{chr(i) for i in range(ord('A'), ord('Z') + 1)}`
(`settings_manager.py` line 160). -/
def valid_letter_keys : List String :=
  ["A", "B", "C", "D", "E", "F", "G", "H", "I", "J", "K", "L", "M",
   "N", "O", "P", "Q", "R", "S", "T", "U", "V", "W", "X", "Y", "Z"]

/-- `{str(i) for i in range(10)}` (`settings_manager.py` line 161). -/
def valid_number_keys : List String :=
  ["0", "1", "2", "3", "4", "5", "6", "7", "8", "9"]

/-- The named-key allow-list of `SettingsManager.validate_hotkey`
(`settings_manager.py` line 162). -/
def valid_special_keys : List String :=
  ["Space", "Tab", "Enter", "Esc", "Delete", "Insert", "Home", "End",
   "PageUp", "PageDown"]

/-- `SettingsManager.validate_hotkey` (`settings_manager.py` lines 138-196).
Python's `str.strip`/`str.split('+')` are modelled by `pyStrip`/`pySplit` on
the string's character list (note the source strips the whole string first,
then strips each `'+'`-separated part again at line 166), and the duplicate
check `len(modifiers) != len(set(modifiers))` by comparing with the length
of `List.dedup`. -/
def validate_hotkey (hotkey : String) : HotkeyValidation :=
  if hotkey = "" then
    ⟨false, some "Hotkey cannot be empty", none⟩
  else
    let hotkey_s := pyStrip hotkey.toList
    let parts := (pySplit '+' hotkey_s).map pyStrip
    if parts = [] then
      ⟨false, some "Invalid hotkey format", none⟩
    else
      let main_key := parts.getLastD []
      let modifiers := parts.dropLast
      match modifiers.find? (fun m => !(strListContains valid_modifiers m)) with
      | some m => ⟨false, some ("Invalid modifier: " ++ String.mk m), none⟩
      | none =>
        if !(strListContains valid_function_keys main_key ||
             strListContains valid_letter_keys main_key ||
             strListContains valid_number_keys main_key ||
             strListContains valid_special_keys main_key) then
          ⟨false, some ("Invalid key: " ++ String.mk main_key), none⟩
        else if modifiers.length ≠ modifiers.dedup.length then
          ⟨false, some "Duplicate modifiers not allowed", none⟩
        else
          ⟨true, none,
            some ⟨String.mk main_key, modifiers.map String.mk, String.mk hotkey_s⟩⟩

/-- The union of the four main-key allow-lists of `validate_hotkey`. -/
def mainKeyAllowList : List String :=
  valid_function_keys ++ valid_letter_keys ++ valid_number_keys ++ valid_special_keys

/-- The validity condition exactly as the claim about `validate_hotkey`
words it, for comparison with the implementation: the trimmed hotkey string
splits on `'+'` into zero or more modifiers followed by one main key, every
modifier is in the modifier allow-list, no modifier repeats, and the main
key is in the key allow-list — with the split parts compared verbatim
against the allow-lists. -/
def hotkeyClaimValid (hotkey : String) : Bool :=
  let parts := pySplit '+' (pyStrip hotkey.toList)
  parts.dropLast.all (fun m => strListContains valid_modifiers m) &&
  decide parts.dropLast.Nodup &&
  strListContains mainKeyAllowList (parts.getLastD [])

/-- The validity condition the implementation actually decides: as the
claim's, except that the string must be non-empty and each `'+'`-separated
part is itself stripped of surrounding whitespace before being matched. -/
def hotkeyAmendedValid (hotkey : String) : Bool :=
  (hotkey != "") &&
  (let parts := (pySplit '+' (pyStrip hotkey.toList)).map pyStrip
   parts.dropLast.all (fun m => strListContains valid_modifiers m) &&
   decide parts.dropLast.Nodup &&
   strListContains mainKeyAllowList (parts.getLastD []))

/-- The data `WindowManager.get_monitors` (`window_manager.py` lines 365-382)
obtains for one enumerated monitor from `GetMonitorInfo` and
`_get_dpi_for_monitor`, before the `index` is attached. -/
structure MonitorRaw where
  rect : ℤ × ℤ × ℤ × ℤ
  work_area : ℤ × ℤ × ℤ × ℤ
  dpi : ℤ × ℤ
  deriving Repr, DecidableEq

/-- The monitor dict built at `window_manager.py` lines 373-382: the `index`
is the position in the enumeration and `scale_factor` is
`(dpi_x / 96.0, dpi_y / 96.0)`. -/
def monitorOfRaw (index : Nat) (raw : MonitorRaw) : Monitor :=
  ⟨index, raw.rect, raw.work_area, raw.dpi,
    ((raw.dpi.1 : ℚ) / 96, (raw.dpi.2 : ℚ) / 96)⟩

/-- The monitor-processing loop of `WindowManager.get_monitors`
(`window_manager.py` lines 365-387): `for index, (hmonitor, hdc, rect) in
enumerate(monitor_list)` builds one monitor dict per entry, skipping entries
whose processing raised (the `except` at line 386) while the enumeration
index still advances. -/
def processMonitors (index : Nat) : List (Option MonitorRaw) → List Monitor
  | [] => []
  | none :: rest => processMonitors (index + 1) rest
  | some raw :: rest => monitorOfRaw index raw :: processMonitors (index + 1) rest

/-- Stable insertion of a monitor into a list sorted by `index`. -/
def insertByIndex (m : Monitor) : List Monitor → List Monitor
  | [] => [m]
  | x :: xs => if m.index ≤ x.index then m :: x :: xs else x :: insertByIndex m xs

/-- `monitors.sort(key=lambda m: m['index'])` (`window_manager.py` line 390):
a stable sort by the `index` field. -/
def sortByIndex (monitors : List Monitor) : List Monitor :=
  monitors.foldr insertByIndex []

/-- The mutable monitor-cache fields of `WindowManager`
(`window_manager.py` lines 68-69): `monitors_cache` starts as `None`
(Python's `None`/list-valued attribute becomes an `Option`), and
`cache_timestamp` is a float timestamp. -/
structure MonitorCacheState where
  monitors_cache : Option (List Monitor)
  cache_timestamp : ℚ
  deriving Repr, DecidableEq

/-- `self.cache_duration = 5.0` (`window_manager.py` line 70). -/
def cache_duration : ℚ := 5

/-- The cache-validity test of `WindowManager.get_monitors`
(`window_manager.py` lines 353-354): `self.monitors_cache` must be truthy
(neither `None` nor the empty list) and the cache younger than
`cache_duration`. -/
def cacheIsFresh (st : MonitorCacheState) (current_time : ℚ) : Bool :=
  match st.monitors_cache with
  | some l => !l.isEmpty && decide (current_time - st.cache_timestamp < cache_duration)
  | none => false

/-- `WindowManager.get_monitors` (`window_manager.py` lines 338-405) as a
state transformer on the cache fields.  `enum` is the outcome of
`EnumDisplayMonitors` together with the per-monitor processing: `.error ()`
when the enumeration itself raises (the `except` at line 401 then returns
`[]` without touching the cache), and `.ok raw` when it returns a list whose
entries are `none` when processing that monitor raised (line 386 skips it
while the enumeration index still advances) and `some` of the gathered data
otherwise. -/
def get_monitors (st : MonitorCacheState) (current_time : ℚ)
    (enum : Except Unit (List (Option MonitorRaw))) :
    List Monitor × MonitorCacheState :=
  if cacheIsFresh st current_time then
    (st.monitors_cache.getD [], st)
  else
    match enum with
    | .error _ => ([], st)
    | .ok raw =>
      let monitors := sortByIndex (processMonitors 0 raw)
      (monitors, ⟨some monitors, current_time⟩)

/-- Outcome of a pywin32 call that returns a boolean: it returned a truthy
value (`ok`), returned a falsy value (`fail`), or raised (`exc`). -/
inductive ApiCall
  | ok
  | fail
  | exc
  deriving Repr, DecidableEq

/-- Outcome of the `SetWindowPos` call in the fallback branch of
`WindowManager._move_maximized_window` (`window_manager.py` line 969).  The
source distrusts the returned boolean: after a falsy return it reads the
actual rectangle to see whether the window moved anyway, so a falsy return is
split into `failedStay` (window did not move) and `failedMoved` (the call
reported failure but the window did reach the target position).  `exc` raises
without moving the window. -/
inductive PosOutcome
  | moved
  | failedStay
  | failedMoved
  | exc
  deriving Repr, DecidableEq

/-- Outcomes of the Win32 calls of `WindowManager._move_maximized_window`,
one field per call site: `GetWindowPlacement` (line 926) and `GetWindowRect`
(line 985) either return data or raise; `SetWindowPlacement` (line 946)
returns a boolean or raises. -/
structure MaxMoveOracle where
  getPlacementRaises : Bool
  setPlacement : ApiCall
  setPos : PosOutcome
  getRectRaises : Bool
  deriving Repr, DecidableEq

/-- The observable window state tracked for
`WindowManager._move_maximized_window`: the window's x position (`origX`
before the move, `newX` after a successful move — which monitor it is on) and
whether it is maximized. -/
structure WindowPos where
  x : ℤ
  maximized : Bool
  deriving Repr, DecidableEq

/-- `WindowManager._move_maximized_window` (`window_manager.py` lines
914-1015), returning the reported boolean together with the final window
state.  The window starts maximized at `origX`; `newX` is the target x.
Modelling choices: `ShowWindow` (`SW_RESTORE`/`SW_MAXIMIZE`) is the one call
the source treats as unconditionally effective (its result is never
inspected), so it is modelled as total — every path that re-maximizes does
maximize; the `width`/`height` arguments only feed the temporary size of the
intermediate `SetWindowPos` and are not observable, so they are omitted.
Method 1 succeeds exactly when `GetWindowPlacement` returns and
`SetWindowPlacement` returns truthy, leaving the window maximized at the
target; otherwise Method 2 restores the window and issues `SetWindowPos`,
re-maximizing wherever the window ended up on every remaining path.  The
verification test after a falsy `SetWindowPos` is `current_rect[0] >=
new_x - 100` (line 989) on the window's actual x. -/
def _move_maximized_window (o : MaxMoveOracle) (origX newX : ℤ) :
    Bool × WindowPos :=
  if !o.getPlacementRaises && o.setPlacement = ApiCall.ok then
    (true, ⟨newX, true⟩)
  else
    match o.setPos with
    | .moved => (true, ⟨newX, true⟩)
    | .exc => (false, ⟨origX, true⟩)
    | .failedStay =>
      if o.getRectRaises then (false, ⟨origX, true⟩)
      else if newX - 100 ≤ origX then (true, ⟨origX, true⟩)
      else (false, ⟨origX, true⟩)
    | .failedMoved =>
      if o.getRectRaises then (false, ⟨newX, true⟩)
      else if newX - 100 ≤ newX then (true, ⟨newX, true⟩)
      else (false, ⟨newX, true⟩)

/-- The environment one invocation of
`WindowManager.move_active_window_to_next_monitor` runs in: `window` is what
`get_current_window` returns (it catches its own errors and yields `None`),
`monitors` is what `get_monitors` returns (it yields `[]` on enumeration
failure), `exclude_fullscreen` is the settings value read by
`_should_exclude_window`, and `moveResult` is the boolean `_move_window`
reports for the computed rectangle (that call catches its own errors). -/
structure PipelineEnv where
  window : Option WindowInfo
  exclude_fullscreen : Bool
  monitors : List Monitor
  moveResult : Bool
  deriving Repr, DecidableEq

/-- The body of the `try` block of
`WindowManager.move_active_window_to_next_monitor` (`window_manager.py`
lines 638-688): each early-abort condition returns `false`; a
`ZeroDivisionError` raised by `calculate_target_position` surfaces as
`.error ()`. -/
def movePipeline (env : PipelineEnv) : Except Unit Bool :=
  match env.window with
  | none => .ok false
  | some window_info =>
    if _should_exclude_window env.exclude_fullscreen env.monitors window_info then
      .ok false
    else if env.monitors.length < 2 then
      .ok false
    else
      match _find_window_monitor window_info.rect env.monitors with
      | none => .ok false
      | some current_monitor =>
        match _get_next_monitor current_monitor env.monitors with
        | none => .ok false
        | some next_monitor =>
          match calculate_target_position window_info.rect current_monitor
              next_monitor with
          | none => .error ()
          | some _ => .ok env.moveResult

/-- `WindowManager.move_active_window_to_next_monitor` (`window_manager.py`
lines 630-693): the `try` body, with the `except` at line 690 turning any
escaped error into a `false` result. -/
def move_active_window_to_next_monitor (env : PipelineEnv) : Bool :=
  match movePipeline env with
  | .ok b => b
  | .error _ => false

/-- Concrete monitors and windows used to instantiate the theorems below:
a 1000×1000 unscaled monitor at the origin. -/
def monSquare : Monitor := ⟨0, (0, 0, 1000, 1000), (0, 0, 1000, 1000), (96, 96), (1, 1)⟩

/-- A 900×900 unscaled monitor whose work area lies at negative coordinates,
as happens for a display left of or above the primary one. -/
def monNeg : Monitor :=
  ⟨1, (-1000, -1000, -100, -100), (-1000, -1000, -100, -100), (96, 96), (1, 1)⟩

/-- A malformed monitor record with a zero scale factor, under which the
geometry mapper's divisions raise. -/
def monZero : Monitor := ⟨0, (0, 0, 1000, 1000), (0, 0, 1000, 1000), (0, 0), (0, 0)⟩

/-- Truncation of an integer-valued rational is that integer. -/
theorem pyInt_intCast (n : ℤ) : pyInt (n : ℚ) = n := by
  unfold pyInt
  split_ifs with h
  · exact Int.floor_intCast n
  · exact Int.ceil_intCast n

/-- Truncation of a numeral-valued rational is that numeral. -/
theorem pyInt_ofNat (n : ℕ) :
    pyInt (no_index (OfNat.ofNat n) : ℚ) = OfNat.ofNat n := by
  have h : (@OfNat.ofNat ℚ n Rat.instOfNat) = ((n : ℤ) : ℚ) := by norm_cast
  rw [h, pyInt_intCast]
  norm_cast

/-- Truncation of the zero rational. -/
theorem pyInt_zero : pyInt 0 = 0 := by
  simpa using pyInt_intCast 0

/-- Truncation of the unit rational. -/
theorem pyInt_one : pyInt 1 = 1 := by
  simpa using pyInt_intCast 1

/-- A rational at least one truncates to a positive integer. -/
theorem pyInt_pos {q : ℚ} (h : 1 ≤ q) : 0 < pyInt q := by
  unfold pyInt
  rw [if_pos (le_trans zero_le_one h)]
  have h1 : (1 : ℤ) ≤ ⌊q⌋ := Int.le_floor.mpr (by exact_mod_cast h)
  omega

/-- When the size stage raises, `calculate_target_position` raises. -/
theorem calculate_target_position_none (w : ℤ × ℤ × ℤ × ℤ) (cm tm : Monitor)
    (h : ctpScaledSize w cm tm = none) :
    calculate_target_position w cm tm = none := by
  unfold calculate_target_position
  rw [h]

/-- The work-area overflow clamp of `calculate_target_position` (lines
618-622) never returns more than the work-area dimension, and returns a
positive value whenever the dimension exceeds the 40-unit margin and the
incoming size was positive. -/
theorem size_clamp_bounds (tw s : ℤ) :
    (if tw < s then tw - 40 else s) ≤ tw ∧
    (40 < tw → 0 < s → 0 < (if tw < s then tw - 40 else s)) := by
  constructor
  · split_ifs with hc <;> omega
  · intro h40 hs
    split_ifs with hc <;> omega

/-- The position clamp of `calculate_target_position` (lines 625-626) keeps
the rectangle at least 10 units inside the work-area origin, and — when the
size leaves room for both 10-unit insets — at least 10 units short of the
work-area end. -/
theorem position_clamp_bounds (tx tr cx F : ℤ) :
    tx + 10 ≤ max (tx + 10) (min cx (tr - F - 10)) ∧
    (F ≤ (tr - tx) - 20 → max (tx + 10) (min cx (tr - F - 10)) + F ≤ tr - 10) := by
  constructor
  · exact le_max_left _ _
  · intro hF
    have h1 : min cx (tr - F - 10) ≤ tr - F - 10 := min_le_right _ _
    have h2 : tx + 10 ≤ tr - F - 10 := by omega
    have h3 : max (tx + 10) (min cx (tr - F - 10)) ≤ tr - F - 10 := max_le h2 h1
    omega

/-- Positivity propagates through the size stage's adjustment chain: the
sanity fallback (a floor of `c1`), the large-ratio cap (`capv`) and the
small-ratio floor (`c2`). -/
theorem clamp_stage_pos {cap sane small : Prop}
    [Decidable cap] [Decidable sane] [Decidable small]
    (capv fbv s0 c1 c2 : ℤ) (h1 : 0 < c1) (h2 : 0 < c2)
    (hcap : cap → ¬small → 0 < capv)
    (hs0 : ¬sane → 0 < s0) :
    0 < (if small then max (if cap then capv else if sane then max c1 fbv else s0) c2
         else (if cap then capv else if sane then max c1 fbv else s0)) := by
  split_ifs with hsm hc hsn hc' hsn'
  · have := le_max_right capv c2
    omega
  · have := le_max_right (max c1 fbv) c2
    omega
  · have := le_max_right s0 c2
    omega
  · exact hcap hc' hsm
  · have := le_max_left c1 fbv
    omega
  · exact hs0 hsn'

/-- The size stage yields positive dimensions whenever the target work area
exceeds the 40-unit margin: each adjustment branch either keeps a positive
value or floors it at 400/300, and the capped-ratio branch keeps ratios of at
least 10% of a work area of at least 41 units. -/
theorem ctpScaledSize_pos (w : ℤ × ℤ × ℤ × ℤ) (cm tm : Monitor) (sw sh : ℤ)
    (hsz : ctpScaledSize w cm tm = some (sw, sh)) :
    (40 < tm.work_area.2.2.1 - tm.work_area.1 → 0 < sw) ∧
    (40 < tm.work_area.2.2.2 - tm.work_area.2.1 → 0 < sh) := by
  obtain ⟨wx, wy, wr, wb⟩ := w
  obtain ⟨ci, crect, ⟨cx, cy, cr, cb⟩, cdpi, csf⟩ := cm
  obtain ⟨ti, trect, ⟨tx, ty, tr, tb⟩, tdpi, tsf⟩ := tm
  dsimp only
  simp only [ctpScaledSize] at hsz
  split at hsz
  · cases hsz
  · injection hsz with hp
    injection hp with h1 h2
    subst h1
    subst h2
    constructor
    · intro htw
      refine clamp_stage_pos _ _ _ _ _ (by norm_num) (by norm_num) ?_ ?_
      · intro hc hns
        rw [not_or] at hns
        obtain ⟨hw1, -⟩ := hns
        rw [not_lt] at hw1
        apply pyInt_pos
        have h41 : (41 : ℚ) ≤ ((tr - tx : ℤ) : ℚ) := by
          have : (41 : ℤ) ≤ tr - tx := by omega
          exact_mod_cast this
        nlinarith [hw1, h41]
      · intro hsn
        rw [not_or] at hsn
        exact not_le.mp hsn.1
    · intro hth
      refine clamp_stage_pos _ _ _ _ _ (by norm_num) (by norm_num) ?_ ?_
      · intro hc hns
        rw [not_or] at hns
        obtain ⟨-, hw2⟩ := hns
        rw [not_lt] at hw2
        apply pyInt_pos
        have h41 : (41 : ℚ) ≤ ((tb - ty : ℤ) : ℚ) := by
          have : (41 : ℤ) ≤ tb - ty := by omega
          exact_mod_cast this
        nlinarith [hw2, h41]
      · intro hsn
        rw [not_or] at hsn
        exact not_le.mp hsn.2

/-- C1 counterexample: for the window rectangle `(0, 0, 120, 2000)` on a
1000×1000 unscaled monitor pair — work areas positive, scale factors
positive — `calculate_target_position` returns width 120 and height 1000.
The width is below every candidate minimum usable size (the spec's example
300, and the code's own 400 floor), because the 12% width ratio escapes the
`< 10%` floor branch; and the height equals the full work-area height, above
"work-area size minus the fixed margin" (1000 − 40), because the overflow
clamp at line 618/621 only fires on a strict overshoot. -/
theorem calculate_target_position_size_counterexample :
    calculate_target_position (0, 0, 120, 2000) monSquare monSquare =
      some (10, 10, 120, 1000) ∧
    0 < monSquare.work_area.2.2.1 - monSquare.work_area.1 ∧
    0 < monSquare.work_area.2.2.2 - monSquare.work_area.2.1 ∧
    0 < monSquare.scale_factor.1 ∧
    (120 : ℤ) < 300 ∧
    ¬((1000 : ℤ) ≤ 1000 - 40) := by
  have hsz : ctpScaledSize (0, 0, 120, 2000) monSquare monSquare =
      some (120, 1000) := by
    norm_num [ctpScaledSize, monSquare, pyInt_ofNat, pyInt_zero, pyInt_one,
      min_def, max_def]
  have hrat : ctpPositionRatios (0, 0, 120, 2000) monSquare = (0, 0) := by
    norm_num [ctpPositionRatios, monSquare]
  refine ⟨?_, by norm_num [monSquare], by norm_num [monSquare],
    by norm_num [monSquare], by norm_num, by norm_num⟩
  rw [calculate_target_position.eq_def, hsz, hrat]
  norm_num [monSquare, pyInt_zero, min_def, max_def]

/-- C1 as amended: the width and height returned by
`calculate_target_position` never exceed the target work-area's logical
dimensions (the 40-unit margin is subtracted only when the computed size
strictly overshoots), and they are positive whenever the corresponding
work-area dimension exceeds the 40-unit margin; the claimed lower bound of a
minimum usable size, and the upper bound of work-area size minus margin, do
not hold in general. -/
theorem calculate_target_position_size_bounds (w : ℤ × ℤ × ℤ × ℤ)
    (cm tm : Monitor) (out : ℤ × ℤ × ℤ × ℤ)
    (h : calculate_target_position w cm tm = some out) :
    out.2.2.1 ≤ tm.work_area.2.2.1 - tm.work_area.1 ∧
    out.2.2.2 ≤ tm.work_area.2.2.2 - tm.work_area.2.1 ∧
    (40 < tm.work_area.2.2.1 - tm.work_area.1 → 0 < out.2.2.1) ∧
    (40 < tm.work_area.2.2.2 - tm.work_area.2.1 → 0 < out.2.2.2) := by
  rcases hsz : ctpScaledSize w cm tm with _ | ⟨sw, sh⟩
  · rw [calculate_target_position_none w cm tm hsz] at h
    cases h
  · have hpos := ctpScaledSize_pos w cm tm sw sh hsz
    obtain ⟨ox, oy, ow', oh'⟩ := out
    obtain ⟨ti, trect, ⟨tx, ty, tr, tb⟩, tdpi, tsf⟩ := tm
    dsimp only at hpos ⊢
    rcases hrat : ctpPositionRatios w cm with ⟨rx, ry⟩
    unfold calculate_target_position at h
    rw [hsz, hrat] at h
    simp only [Option.some_inj, Prod.mk.injEq] at h
    obtain ⟨hx, hy, hw, hh⟩ := h
    subst hw
    subst hh
    refine ⟨(size_clamp_bounds (tr - tx) sw).1, (size_clamp_bounds (tb - ty) sh).1,
      ?_, ?_⟩
    · intro h40
      exact (size_clamp_bounds (tr - tx) sw).2 h40 (hpos.1 h40)
    · intro h40
      exact (size_clamp_bounds (tb - ty) sh).2 h40 (hpos.2 h40)

/-- Witness for `calculate_target_position_size_bounds` at the concrete
output `(10, 10, 120, 1000)` on the 1000×1000 monitor pair: width 120 and
height 1000 are at most 1000 and positive. -/
theorem calculate_target_position_size_bounds_witness :
    (120 : ℤ) ≤ 1000 ∧ (1000 : ℤ) ≤ 1000 ∧ (0 : ℤ) < 120 ∧ (0 : ℤ) < 1000 := by
  have heval : calculate_target_position (0, 0, 120, 2000) monSquare monSquare =
      some (10, 10, 120, 1000) := by
    have hsz : ctpScaledSize (0, 0, 120, 2000) monSquare monSquare =
        some (120, 1000) := by
      norm_num [ctpScaledSize, monSquare, pyInt_ofNat, pyInt_zero, pyInt_one,
        min_def, max_def]
    have hrat : ctpPositionRatios (0, 0, 120, 2000) monSquare = (0, 0) := by
      norm_num [ctpPositionRatios, monSquare]
    rw [calculate_target_position.eq_def, hsz, hrat]
    norm_num [monSquare, pyInt_zero, min_def, max_def]
  have h := calculate_target_position_size_bounds (0, 0, 120, 2000) monSquare
    monSquare (10, 10, 120, 1000) heval
  have h40w : (40 : ℤ) < monSquare.work_area.2.2.1 - monSquare.work_area.1 := by
    norm_num [monSquare]
  have h40h : (40 : ℤ) < monSquare.work_area.2.2.2 - monSquare.work_area.2.1 := by
    norm_num [monSquare]
  exact ⟨h.1, h.2.1, h.2.2.1 h40w, h.2.2.2 h40h⟩

/-- C2 counterexample: for the window rectangle `(0, 0, 2000, 120)` on the
1000×1000 unscaled monitor pair, `calculate_target_position` returns
`(10, 10, 1000, 120)`: the returned x plus width reaches 1010, beyond the
work-area right edge minus the 10-unit inset (990), so the rectangle does not
lie fully inside the work area plus the inset. -/
theorem calculate_target_position_position_counterexample :
    calculate_target_position (0, 0, 2000, 120) monSquare monSquare =
      some (10, 10, 1000, 120) ∧
    ¬((10 : ℤ) + 1000 ≤ 1000 - 10) := by
  have hsz : ctpScaledSize (0, 0, 2000, 120) monSquare monSquare =
      some (1000, 120) := by
    norm_num [ctpScaledSize, monSquare, pyInt_ofNat, pyInt_zero, pyInt_one,
      min_def, max_def]
  have hrat : ctpPositionRatios (0, 0, 2000, 120) monSquare = (0, 0) := by
    norm_num [ctpPositionRatios, monSquare]
  refine ⟨?_, by norm_num⟩
  rw [calculate_target_position.eq_def, hsz, hrat]
  norm_num [monSquare, pyInt_zero, min_def, max_def]

/-- C2 as amended: the returned x and y are at least the work-area origin
plus the 10-unit inset, and the rectangle's far edges stay at least 10 units
inside the work area whenever the returned size leaves room for both insets
(size at most work-area dimension minus 20); when the size exceeds that, the
far edge can overshoot.  The x/y coordinates are not clamped to non-negative
values: on a target whose work area lies at negative coordinates the
returned position is negative. -/
theorem calculate_target_position_position_bounds :
    (∀ (w : ℤ × ℤ × ℤ × ℤ) (cm tm : Monitor) (out : ℤ × ℤ × ℤ × ℤ),
      calculate_target_position w cm tm = some out →
      tm.work_area.1 + 10 ≤ out.1 ∧
      tm.work_area.2.1 + 10 ≤ out.2.1 ∧
      (out.2.2.1 ≤ tm.work_area.2.2.1 - tm.work_area.1 - 20 →
        out.1 + out.2.2.1 ≤ tm.work_area.2.2.1 - 10) ∧
      (out.2.2.2 ≤ tm.work_area.2.2.2 - tm.work_area.2.1 - 20 →
        out.2.1 + out.2.2.2 ≤ tm.work_area.2.2.2 - 10)) ∧
    (calculate_target_position (100, 100, 500, 500) monSquare monNeg =
        some (-910, -910, 360, 360) ∧ (-910 : ℤ) < 0) := by
  constructor
  · intro w cm tm out h
    rcases hsz : ctpScaledSize w cm tm with _ | ⟨sw, sh⟩
    · rw [calculate_target_position_none w cm tm hsz] at h
      cases h
    · obtain ⟨ox, oy, ow', oh'⟩ := out
      obtain ⟨ti, trect, ⟨tx, ty, tr, tb⟩, tdpi, tsf⟩ := tm
      dsimp only
      rcases hrat : ctpPositionRatios w cm with ⟨rx, ry⟩
      unfold calculate_target_position at h
      rw [hsz, hrat] at h
      simp only [Option.some_inj, Prod.mk.injEq] at h
      obtain ⟨hx, hy, hw, hh⟩ := h
      subst hx
      subst hy
      subst hw
      subst hh
      exact ⟨(position_clamp_bounds tx tr _ _).1, (position_clamp_bounds ty tb _ _).1,
        (position_clamp_bounds tx tr _ _).2, (position_clamp_bounds ty tb _ _).2⟩
  · have hsz : ctpScaledSize (100, 100, 500, 500) monSquare monNeg =
        some (360, 360) := by
      norm_num [ctpScaledSize, monSquare, monNeg, pyInt_ofNat, pyInt_zero,
        pyInt_one, min_def, max_def]
    have hrat : ctpPositionRatios (100, 100, 500, 500) monSquare = (1/10, 1/10) := by
      norm_num [ctpPositionRatios, monSquare]
    refine ⟨?_, by norm_num⟩
    rw [calculate_target_position.eq_def, hsz, hrat]
    norm_num [monNeg, pyInt_ofNat, min_def, max_def]

/-- Witness for `calculate_target_position_position_bounds` at the concrete
output `(-910, -910, 360, 360)` on the negative-coordinate target monitor:
both coordinates respect the inset lower bound and, since 360 leaves room
for the insets, the far edges stay inside. -/
theorem calculate_target_position_position_bounds_witness :
    (-1000 : ℤ) + 10 ≤ -910 ∧ (-1000 : ℤ) + 10 ≤ -910 ∧
    (-910 : ℤ) + 360 ≤ -100 - 10 ∧ (-910 : ℤ) + 360 ≤ -100 - 10 := by
  have h := calculate_target_position_position_bounds.1 (100, 100, 500, 500)
    monSquare monNeg (-910, -910, 360, 360)
    calculate_target_position_position_bounds.2.1
  have hroomw : ((-910 : ℤ), (-910 : ℤ), (360 : ℤ), (360 : ℤ)).2.2.1 ≤
      monNeg.work_area.2.2.1 - monNeg.work_area.1 - 20 := by
    norm_num [monNeg]
  have hroomh : ((-910 : ℤ), (-910 : ℤ), (360 : ℤ), (360 : ℤ)).2.2.2 ≤
      monNeg.work_area.2.2.2 - monNeg.work_area.2.1 - 20 := by
    norm_num [monNeg]
  exact ⟨h.1, h.2.1, h.2.2.1 hroomw, h.2.2.2 hroomh⟩

/-- C4: `_is_fullscreen_window` judges a window fullscreen only if it is not
maximized and its rectangle inclusively contains, on all four edges, the
rectangle of the monitor `_find_window_monitor` assigns it to; a snapshot
with `is_maximized` set is never judged fullscreen. -/
theorem is_fullscreen_window_only_if_covering (monitors : List Monitor)
    (wi : WindowInfo) :
    (_is_fullscreen_window monitors wi = true →
      wi.is_maximized = false ∧
      ∃ m, _find_window_monitor wi.rect monitors = some m ∧
        wi.rect.1 ≤ m.rect.1 ∧ wi.rect.2.1 ≤ m.rect.2.1 ∧
        m.rect.2.2.1 ≤ wi.rect.2.2.1 ∧ m.rect.2.2.2 ≤ wi.rect.2.2.2) ∧
    (wi.is_maximized = true → _is_fullscreen_window monitors wi = false) := by
  obtain ⟨⟨wx, wy, wr, wb⟩, title, cls, maxi, mini⟩ := wi
  constructor
  · intro h
    cases maxi with
    | true => simp [_is_fullscreen_window] at h
    | false =>
      simp only [_is_fullscreen_window, Bool.false_eq_true, if_false] at h
      rcases hfind : _find_window_monitor (wx, wy, wr, wb) monitors with _ | m
      · rw [hfind] at h
        exact absurd h (by simp)
      · obtain ⟨mi, ⟨mx, my, mr, mb⟩, mwa, mdpi, msc⟩ := m
        rw [hfind] at h
        simp only [Bool.and_eq_true, decide_eq_true_eq] at h
        exact ⟨rfl, ⟨⟨mi, (mx, my, mr, mb), mwa, mdpi, msc⟩, rfl,
          h.1, h.2.1, h.2.2.1, h.2.2.2⟩⟩
  · intro h
    have hm : maxi = true := h
    subst hm
    simp [_is_fullscreen_window]

/-- Witness for `is_fullscreen_window_only_if_covering`: a non-maximized
window covering its 1000×1000 monitor is judged fullscreen and the theorem
recovers the covering monitor; a maximized window is never judged
fullscreen. -/
theorem is_fullscreen_window_only_if_covering_witness :
    ((⟨(0, 0, 1000, 1000), "Game", "GameWnd", false, false⟩ : WindowInfo).is_maximized
        = false ∧
      ∃ m, _find_window_monitor (0, 0, 1000, 1000) [monSquare] = some m ∧
        (0 : ℤ) ≤ m.rect.1 ∧ (0 : ℤ) ≤ m.rect.2.1 ∧
        m.rect.2.2.1 ≤ 1000 ∧ m.rect.2.2.2 ≤ 1000) ∧
    _is_fullscreen_window [monSquare]
      ⟨(0, 0, 1000, 1000), "Game", "GameWnd", true, false⟩ = false :=
  ⟨(is_fullscreen_window_only_if_covering [monSquare] _).1 (by decide),
   (is_fullscreen_window_only_if_covering [monSquare] _).2 rfl⟩

/-- C5: `_should_exclude_window` excludes every minimized snapshot outright,
and admits every snapshot that is not minimized, has a non-blank title, a
class name outside the deny-list, and is not caught by the
fullscreen-exclusion setting. -/
theorem should_exclude_window_spec (efs : Bool) (monitors : List Monitor)
    (wi : WindowInfo) :
    (wi.is_minimized = true → _should_exclude_window efs monitors wi = true) ∧
    (wi.is_minimized = false → pyStrip wi.title.toList ≠ [] →
      strListContains excluded_classes wi.class_name.toList = false →
      ¬(efs = true ∧ _is_fullscreen_window monitors wi = true) →
      _should_exclude_window efs monitors wi = false) := by
  constructor
  · intro h
    simp [_should_exclude_window, h]
  · intro h1 h2 h3 h4
    have hfs : (efs && _is_fullscreen_window monitors wi) = false := by
      cases efs
      · rfl
      · cases hf : _is_fullscreen_window monitors wi
        · rfl
        · exact absurd ⟨rfl, hf⟩ h4
    simp only [_should_exclude_window, h1, hfs, Bool.false_eq_true, if_false]
    simp only [h3, Bool.false_eq_true, if_false]
    exact if_neg h2

/-- Witness for `should_exclude_window_spec`: a minimized window is excluded;
an ordinary titled window is not. -/
theorem should_exclude_window_spec_witness :
    _should_exclude_window true [monSquare]
      ⟨(0, 0, 100, 100), "Doc", "Notepad", false, true⟩ = true ∧
    _should_exclude_window true [monSquare]
      ⟨(0, 0, 100, 100), "Doc", "Notepad", false, false⟩ = false :=
  ⟨(should_exclude_window_spec true [monSquare] _).1 rfl,
   (should_exclude_window_spec true [monSquare] _).2 rfl (by decide) (by decide)
     (by decide)⟩

/-- C6: on a list of exactly two monitors carrying indices 0 and 1 (in either
order), `_get_next_monitor` sends the monitor of index `i` to the monitor of
index `(i + 1) % 2`, and applying it twice from either monitor returns the
starting monitor. -/
theorem get_next_monitor_two_monitor_cycle (a b : Monitor)
    (ha : a.index = 0) (hb : b.index = 1) :
    _get_next_monitor a [a, b] = some b ∧ _get_next_monitor b [a, b] = some a ∧
    _get_next_monitor a [b, a] = some b ∧ _get_next_monitor b [b, a] = some a := by
  refine ⟨?_, ?_, ?_, ?_⟩ <;>
    simp [_get_next_monitor, List.find?, ha, hb]

/-- Witness for `get_next_monitor_two_monitor_cycle` at the two concrete
monitors `monSquare` (index 0) and `monNeg` (index 1). -/
theorem get_next_monitor_two_monitor_cycle_witness :
    _get_next_monitor monSquare [monSquare, monNeg] = some monNeg ∧
    _get_next_monitor monNeg [monSquare, monNeg] = some monSquare ∧
    _get_next_monitor monSquare [monNeg, monSquare] = some monNeg ∧
    _get_next_monitor monNeg [monNeg, monSquare] = some monSquare :=
  get_next_monitor_two_monitor_cycle monSquare monNeg rfl rfl

/-- C7: when the per-monitor effective-DPI API and the device-context query
both fail, `_get_dpi_for_monitor` returns the resolution heuristic's result —
96 DPI for the named common resolutions, the 168 DPI high-scale preset below
the `width < 1600 and height < 1000` threshold, 96 DPI for everything else —
and the ultimate fallback `(96, 96)` when the heuristic's own monitor lookup
also fails. -/
theorem get_dpi_fallback_heuristic (o : DpiOracle) :
    (o.getDpiForMonitorApi = none → o.deviceContextDpi = none →
      (∀ l t r b, o.monitorRect = some (l, t, r, b) →
        _get_dpi_for_monitor o =
          (dpiHeuristic (r - l) (b - t), dpiHeuristic (r - l) (b - t))) ∧
      (o.monitorRect = none → _get_dpi_for_monitor o = (96, 96))) ∧
    (∀ w h : ℤ,
      ((w = 1920 ∧ h = 1080) ∨ (w = 2560 ∧ h = 1440) ∨ (w = 3440 ∧ h = 1440) →
        dpiHeuristic w h = 96) ∧
      (w < 1600 ∧ h < 1000 → dpiHeuristic w h = 168) ∧
      (¬((w = 1920 ∧ h = 1080) ∨ (w = 2560 ∧ h = 1440) ∨ (w = 3440 ∧ h = 1440)) →
        ¬(w < 1600 ∧ h < 1000) → dpiHeuristic w h = 96)) := by
  constructor
  · intro h1 h2
    constructor
    · intro l t r b h3
      simp [_get_dpi_for_monitor, h1, h2, h3]
    · intro h3
      simp [_get_dpi_for_monitor, h1, h2, h3]
  · intro w h
    refine ⟨?_, ?_, ?_⟩ <;> unfold dpiHeuristic <;> intros <;> split_ifs <;> omega

/-- Witness for `get_dpi_fallback_heuristic` at an oracle whose first two
strategies fail over a 3000×2000 monitor (neither a named resolution nor low
resolution), and at an oracle where even the heuristic's lookup fails. -/
theorem get_dpi_fallback_heuristic_witness :
    _get_dpi_for_monitor ⟨none, none, some (0, 0, 3000, 2000)⟩ =
      (dpiHeuristic 3000 2000, dpiHeuristic 3000 2000) ∧
    _get_dpi_for_monitor ⟨none, none, none⟩ = (96, 96) ∧
    dpiHeuristic 1366 768 = 168 ∧ dpiHeuristic 2560 1440 = 96 :=
  ⟨((get_dpi_fallback_heuristic ⟨none, none, some (0, 0, 3000, 2000)⟩).1
      rfl rfl).1 0 0 3000 2000 rfl,
   ((get_dpi_fallback_heuristic ⟨none, none, none⟩).1 rfl rfl).2 rfl,
   ((get_dpi_fallback_heuristic ⟨none, none, none⟩).2 1366 768).2.1 (by omega),
   ((get_dpi_fallback_heuristic ⟨none, none, none⟩).2 2560 1440).1
     (by right; left; exact ⟨rfl, rfl⟩)⟩

/-- C8: whenever the monitor list has fewer than two entries — in particular
on a single-monitor system — `move_active_window_to_next_monitor` returns
`false`, and any error that escapes the pipeline body is caught and turned
into a `false` return rather than propagating. -/
theorem move_pipeline_single_monitor_false (env : PipelineEnv) :
    (env.monitors.length < 2 → move_active_window_to_next_monitor env = false) ∧
    (∀ e, movePipeline env = .error e →
      move_active_window_to_next_monitor env = false) := by
  constructor
  · intro hlen
    cases hw : env.window with
    | none => simp [move_active_window_to_next_monitor, movePipeline, hw]
    | some wi =>
      by_cases hex : _should_exclude_window env.exclude_fullscreen env.monitors wi
      · simp [move_active_window_to_next_monitor, movePipeline, hw, hex]
      · simp [move_active_window_to_next_monitor, movePipeline, hw, hex, hlen]
  · intro e he
    simp [move_active_window_to_next_monitor, he]

/-- Witness for `move_pipeline_single_monitor_false`: a single-monitor
environment yields `false`, and an environment whose target-position
computation divides by a zero scale factor (so the pipeline body raises)
also yields `false`. -/
theorem move_pipeline_single_monitor_false_witness :
    move_active_window_to_next_monitor
      ⟨some ⟨(0, 0, 500, 500), "Doc", "Notepad", false, false⟩, true,
        [monSquare], true⟩ = false ∧
    move_active_window_to_next_monitor
      ⟨some ⟨(0, 0, 500, 500), "Doc", "Notepad", false, false⟩, false,
        [monZero, monNeg], true⟩ = false :=
  ⟨(move_pipeline_single_monitor_false _).1 (by decide),
   (move_pipeline_single_monitor_false _).2 () (by
     have hexcl : _should_exclude_window false [monZero, monNeg]
         ⟨(0, 0, 500, 500), "Doc", "Notepad", false, false⟩ = false := by decide
     have hfind : _find_window_monitor (0, 0, 500, 500) [monZero, monNeg] =
         some monZero := by decide
     have hnext : _get_next_monitor monZero [monZero, monNeg] = some monNeg := by
       decide
     have hctp : calculate_target_position (0, 0, 500, 500) monZero monNeg = none :=
       calculate_target_position_none _ _ _
         (by norm_num [ctpScaledSize, monZero, pyInt_zero])
     simp only [movePipeline, hexcl, hfind, hnext, hctp, Bool.false_eq_true,
       if_false, List.length_cons, List.length_nil]
     norm_num)⟩

/-- A list repeats an element exactly when deduplication shortens it — the
form of the duplicate check in `validate_hotkey`. -/
theorem hotkey_dedup_length_iff {α : Type} [DecidableEq α] (l : List α) :
    l.length = l.dedup.length ↔ l.Nodup := by
  constructor
  · intro h
    have hsub := List.dedup_sublist l
    have heq : l.dedup = l := hsub.eq_of_length h.symm
    exact List.dedup_eq_self.mp heq
  · intro h
    rw [List.dedup_eq_self.mpr h]

/-- Membership in the combined main-key allow-list splits over the four
allow-lists checked by `validate_hotkey`. -/
theorem hotkey_main_key_append (mk : List Char) :
    strListContains mainKeyAllowList mk = true ↔
    (strListContains valid_function_keys mk = true ∨
     strListContains valid_letter_keys mk = true ∨
     strListContains valid_number_keys mk = true ∨
     strListContains valid_special_keys mk = true) := by
  simp [strListContains, mainKeyAllowList, List.any_append, or_assoc]

/-- C9 as amended: `validate_hotkey` returns `valid = true` exactly when the
string is non-empty and its trimmed form splits on `'+'` into zero or more
modifiers followed by one main key *with each part itself trimmed*, all
modifiers in the allow-list without repetition and the main key in the key
allow-list; on every other input it returns `valid = false` with a non-null
error message and a null parsed result. -/
theorem validate_hotkey_amended_spec (s : String) :
    ((validate_hotkey s).valid = true ↔ hotkeyAmendedValid s = true) ∧
    ((validate_hotkey s).valid = false →
      (validate_hotkey s).error ≠ none ∧ (validate_hotkey s).parsed = none) := by
  by_cases hs : s = ""
  · subst hs
    decide
  · have hsb : (s != "") = true := by simpa using hs
    unfold validate_hotkey hotkeyAmendedValid
    rw [if_neg hs, hsb, Bool.true_and]
    dsimp only
    set L := (pySplit '+' (pyStrip s.toList)).map pyStrip with hLdef
    by_cases hP : L = []
    · rw [if_pos hP, hP]
      have hempty : strListContains mainKeyAllowList [] = false := by decide
      simp [hempty]
    · rw [if_neg hP]
      rcases hfind : L.dropLast.find? (fun m => !(strListContains valid_modifiers m))
        with _ | m
      · have hall : L.dropLast.all (fun m => strListContains valid_modifiers m)
            = true := by
          rw [List.all_eq_true]
          intro x hx
          have := List.find?_eq_none.mp hfind x hx
          simpa using this
        rw [hall, Bool.true_and]
        dsimp only
        by_cases hmk : (!(strListContains valid_function_keys (L.getLastD []) ||
            strListContains valid_letter_keys (L.getLastD []) ||
            strListContains valid_number_keys (L.getLastD []) ||
            strListContains valid_special_keys (L.getLastD []))) = true
        · rw [if_pos hmk]
          have hmk' : strListContains mainKeyAllowList (L.getLastD []) = false := by
            rw [Bool.not_eq_true'] at hmk
            simp only [Bool.or_eq_false_iff] at hmk
            rw [← Bool.not_eq_true, hotkey_main_key_append]
            push_neg
            refine ⟨?_, ?_, ?_, ?_⟩
            · rw [hmk.1.1.1]
              exact Bool.false_ne_true
            · rw [hmk.1.1.2]
              exact Bool.false_ne_true
            · rw [hmk.1.2]
              exact Bool.false_ne_true
            · rw [hmk.2]
              exact Bool.false_ne_true
          simp only [hmk', Bool.and_false]
          simp
        · rw [if_neg hmk]
          have hmk' : strListContains mainKeyAllowList (L.getLastD []) = true := by
            rw [Bool.not_eq_true, Bool.not_eq_false'] at hmk
            rw [hotkey_main_key_append]
            rcases Bool.or_eq_true_iff.mp hmk with h | h
            · rcases Bool.or_eq_true_iff.mp h with h' | h'
              · rcases Bool.or_eq_true_iff.mp h' with h'' | h''
                · exact Or.inl h''
                · exact Or.inr (Or.inl h'')
              · exact Or.inr (Or.inr (Or.inl h'))
            · exact Or.inr (Or.inr (Or.inr h))
          by_cases hdup : L.dropLast.length ≠ L.dropLast.dedup.length
          · rw [if_pos hdup]
            have hnd : ¬ L.dropLast.Nodup := fun h =>
              hdup ((hotkey_dedup_length_iff _).mpr h)
            simp [hnd]
          · rw [if_neg hdup]
            have hnd : L.dropLast.Nodup :=
              (hotkey_dedup_length_iff _).mp (not_ne_iff.mp hdup)
            constructor
            · simp only [hmk', Bool.and_true]
              simp [hnd]
            · intro h
              exact absurd h (by simp)
      · have hmem := List.mem_of_find?_eq_some hfind
        have hpm := List.find?_some hfind
        have hall : L.dropLast.all (fun m => strListContains valid_modifiers m)
            = false := by
          rw [← Bool.not_eq_true, List.all_eq_true]
          intro hforall
          have := hforall m hmem
          simp only [Bool.not_eq_true'] at hpm
          rw [hpm] at this
          cases this
        rw [hall, Bool.false_and]
        simp

/-- C9 counterexample: `validate_hotkey` accepts `"Ctrl + F1"`, but the
claim's condition fails on it: the trimmed string splits on `'+'` into
`["Ctrl ", " F1"]`, and `"Ctrl "` (with its trailing space) is not in the
modifier allow-list.  The implementation strips each part again
(`settings_manager.py` line 166) before matching, which the claim omits. -/
theorem validate_hotkey_counterexample :
    (validate_hotkey "Ctrl + F1").valid = true ∧
    hotkeyClaimValid "Ctrl + F1" = false ∧
    pySplit '+' (pyStrip "Ctrl + F1".toList) = ["Ctrl ".toList, " F1".toList] ∧
    strListContains valid_modifiers "Ctrl ".toList = false := by decide

/-- Witness for `validate_hotkey_amended_spec`: `"Ctrl+Alt+F9"` validates,
and the rejected `"Q+F1"` carries an error message and a null parse. -/
theorem validate_hotkey_amended_spec_witness :
    (validate_hotkey "Ctrl+Alt+F9").valid = true ∧
    ((validate_hotkey "Q+F1").error ≠ none ∧ (validate_hotkey "Q+F1").parsed = none) :=
  ⟨(validate_hotkey_amended_spec "Ctrl+Alt+F9").1.mpr (by decide),
   (validate_hotkey_amended_spec "Q+F1").2 (by decide)⟩

/-- C3 counterexample: with `GetWindowPlacement` succeeding,
`SetWindowPlacement` returning failure, `SetWindowPos` returning failure
without moving the window, and `GetWindowRect` succeeding,
`_move_maximized_window` from x = 1920 toward x = 10 reports `true` — yet the
window sits re-maximized at its original x = 1920, not on the destination
monitor: the unmoved original position passes the `current_rect[0] >=
new_x - 100` verification test (`window_manager.py` line 989) whenever the
destination lies to the left.  This falsifies the claim that a successful
move always leaves the window maximized on the destination monitor. -/
theorem move_maximized_window_counterexample :
    _move_maximized_window ⟨false, ApiCall.fail, PosOutcome.failedStay, false⟩
      1920 10 = (true, ⟨1920, true⟩) ∧ (1920 : ℤ) ≠ 10 := by decide

/-- C3 as amended: `_move_maximized_window` never exits with the window left
in the restored, non-maximized state — every path re-maximizes.  A `true`
return leaves the window maximized at the destination, except that it may
remain at the original position when the failed positioning call's result
passes the ±100-unit verification test there.  A `false` return leaves it
re-maximized at the original position, except when the positioning call had
actually moved the window and the subsequent rectangle read raised. -/
theorem move_maximized_window_state_amended (o : MaxMoveOracle) (origX newX : ℤ) :
    (_move_maximized_window o origX newX).2.maximized = true ∧
    ((_move_maximized_window o origX newX).1 = true →
      (_move_maximized_window o origX newX).2.x = newX ∨
      ((_move_maximized_window o origX newX).2.x = origX ∧ newX - 100 ≤ origX)) ∧
    ((_move_maximized_window o origX newX).1 = false →
      (_move_maximized_window o origX newX).2.x = origX ∨
      o.setPos = PosOutcome.failedMoved) := by
  obtain ⟨gp, sp, pos, gr⟩ := o
  cases gp <;> cases sp <;> cases pos <;> cases gr <;>
    simp only [_move_maximized_window] <;> split_ifs <;> simp_all

/-- Witness for `move_maximized_window_state_amended`: a clean
`SetWindowPos` success ends maximized at the destination x = 500; a raising
`SetWindowPos` ends reported-failed but re-maximized at the original x = 0. -/
theorem move_maximized_window_state_amended_witness :
    (_move_maximized_window ⟨false, ApiCall.fail, PosOutcome.moved, false⟩ 0 500).2.x
        = 500 ∨
      ((_move_maximized_window ⟨false, ApiCall.fail, PosOutcome.moved, false⟩
          0 500).2.x = 0 ∧ (500 : ℤ) - 100 ≤ 0) :=
  (move_maximized_window_state_amended
    ⟨false, ApiCall.fail, PosOutcome.moved, false⟩ 0 500).2.1 rfl

/-- C10: if a stale-cache call to `get_monitors` hits an enumeration failure
it returns the empty list and leaves both the cached list and the cache
timestamp untouched; conversely any call that changes the cache state is one
whose enumeration succeeded, and it stores exactly the processed monitor
list together with the current timestamp. -/
theorem get_monitors_enum_failure_preserves_cache (st : MonitorCacheState)
    (t : ℚ) (enum : Except Unit (List (Option MonitorRaw))) :
    (cacheIsFresh st t = false → enum = .error () →
      get_monitors st t enum = ([], st)) ∧
    (∀ out st', get_monitors st t enum = (out, st') → st' ≠ st →
      ∃ raw, enum = .ok raw ∧
        st'.monitors_cache = some (sortByIndex (processMonitors 0 raw)) ∧
        st'.cache_timestamp = t ∧
        out = sortByIndex (processMonitors 0 raw)) := by
  constructor
  · intro h1 h2
    simp [get_monitors, h1, h2]
  · intro out st' hrun hne
    cases enum with
    | error e =>
      cases hfresh : cacheIsFresh st t with
      | true =>
        simp only [get_monitors, hfresh, if_true] at hrun
        cases hrun
        exact absurd rfl hne
      | false =>
        simp only [get_monitors, hfresh, Bool.false_eq_true, if_false] at hrun
        cases hrun
        exact absurd rfl hne
    | ok raw =>
      cases hfresh : cacheIsFresh st t with
      | true =>
        simp only [get_monitors, hfresh, if_true] at hrun
        cases hrun
        exact absurd rfl hne
      | false =>
        simp only [get_monitors, hfresh, Bool.false_eq_true, if_false] at hrun
        cases hrun
        exact ⟨raw, rfl, rfl, rfl, rfl⟩

/-- Witness for `get_monitors_enum_failure_preserves_cache`: starting from a
populated but expired cache, a failing enumeration returns `[]` and keeps the
old cache; a successful enumeration of two monitors (with a failing third
entry skipped) stores the freshly processed, index-sorted list. -/
theorem get_monitors_enum_failure_preserves_cache_witness :
    get_monitors ⟨some [monSquare], 0⟩ 100 (.error ()) = ([], ⟨some [monSquare], 0⟩) ∧
    ∃ raw, (.ok [some ⟨(0, 0, 1000, 1000), (0, 0, 1000, 1000), (96, 96)⟩, none] :
        Except Unit (List (Option MonitorRaw))) = .ok raw ∧
      (⟨some [monitorOfRaw 0 ⟨(0, 0, 1000, 1000), (0, 0, 1000, 1000), (96, 96)⟩],
          (100 : ℚ)⟩ : MonitorCacheState).monitors_cache =
        some (sortByIndex (processMonitors 0 raw)) ∧
      ((⟨some [monitorOfRaw 0 ⟨(0, 0, 1000, 1000), (0, 0, 1000, 1000), (96, 96)⟩],
          (100 : ℚ)⟩ : MonitorCacheState)).cache_timestamp = 100 ∧
      [monitorOfRaw 0 ⟨(0, 0, 1000, 1000), (0, 0, 1000, 1000), (96, 96)⟩] =
        sortByIndex (processMonitors 0 raw) :=
  ⟨(get_monitors_enum_failure_preserves_cache ⟨some [monSquare], 0⟩ 100
      (.error ())).1 (by norm_num [cacheIsFresh, cache_duration]) rfl,
   (get_monitors_enum_failure_preserves_cache ⟨some [monSquare], 0⟩ 100
      (.ok [some ⟨(0, 0, 1000, 1000), (0, 0, 1000, 1000), (96, 96)⟩, none])).2
      [monitorOfRaw 0 ⟨(0, 0, 1000, 1000), (0, 0, 1000, 1000), (96, 96)⟩]
      ⟨some [monitorOfRaw 0 ⟨(0, 0, 1000, 1000), (0, 0, 1000, 1000), (96, 96)⟩], 100⟩
      (by
        have hfr : cacheIsFresh ⟨some [monSquare], 0⟩ 100 = false := by
          norm_num [cacheIsFresh, cache_duration]
        simp [get_monitors, hfr, processMonitors, sortByIndex, insertByIndex])
      (by
        intro hcontra
        have := congrArg MonitorCacheState.cache_timestamp hcontra
        norm_num at this)⟩
